import Mathlib

/-!
# NifSkope `GLView` (src/glview.cpp): a shallow embedding

The widget's member variables become the fields of the record `GLView`; every
member function becomes a function from the old record to the new one.
Floating-point members (`Zoom`, `Dist`, `Rot`, `Pos`, `time`, ...) are read as
exact numbers of an arbitrary linearly ordered field `α` (`ℚ` for evaluation,
`ℝ` for the reading over the reals).  Where glview.cpp itself narrows a value
to single precision (the local `float dT` of `advanceGears`, the `GLfloat tmp`
and the literal `0.00001f` of `glProjection`) the conversion is the function
`Env.toFloat` and the literal has its exact single-precision value.  The
colour key is a natural number: with
channels in `0..255` it stays below `2^24`, so the 32-bit `int` of the source
never overflows.

Calls that only schedule a repaint or notify other widgets (`update()`,
`emit sigTime(...)`) have no effect on the members modelled here and are left
out.  Code that lives outside glview.cpp (the `Scene`, `BoundSphere`, `Matrix`
and `NifModel` classes, `Options`, the `COLORKEY2ID` macro, libm's `tan`, the
string conversions of `QVariant`) is collected in the record `Env` and in the
record `NifModel`, and every theorem holds for all values of these.
-/

namespace NifSkope

/-! ## Constants (the `#define`s at the top of glview.cpp) -/

section Constants

variable (α : Type) [LinearOrderedField α]

/-- Timer frequency, `#define FPS 60`. -/
def FPS : Nat := 60

/-- Field of view in degrees, `#define FOV 45.0`. -/
def FOV : α := 45

/-- Keyboard movement speed, `#define MOV_SPD 350`. -/
def MOV_SPD : α := 350

/-- Keyboard rotation speed, `#define ROT_SPD 45`. -/
def ROT_SPD : α := 45

/-- Lower zoom bound, `#define ZOOM_MIN 1.0`. -/
def ZOOM_MIN : α := 1

/-- Upper zoom bound, `#define ZOOM_MAX 1000.0`. -/
def ZOOM_MAX : α := 1000

/-- The decimal literal `#define M_PI 3.1415926535897932385`. -/
def M_PI : α := 31415926535897932385 / 10000000000000000000

end Constants

/-! ## Value types -/

/-- Three-component vector (`Vector3`), components `[0]`, `[1]`, `[2]`. -/
structure Vector3 (α : Type) where
  x : α
  y : α
  z : α

/-- The default-constructed `Vector3()`: the zero vector. -/
def Vector3.zero {α : Type} [LinearOrderedField α] : Vector3 α := ⟨0, 0, 0⟩

/-- Component-wise `operator+`. -/
def Vector3.add {α : Type} [LinearOrderedField α] (a b : Vector3 α) : Vector3 α :=
  ⟨a.x + b.x, a.y + b.y, a.z + b.z⟩

/-- Component-wise `operator-`. -/
def Vector3.sub {α : Type} [LinearOrderedField α] (a b : Vector3 α) : Vector3 α :=
  ⟨a.x - b.x, a.y - b.y, a.z - b.z⟩

/-- Bounding sphere (`BoundSphere`): centre and radius. -/
structure BoundSphere (α : Type) where
  center : Vector3 α
  radius : α

/-- The colour of one pixel of the offscreen image (`QColor`), by channel. -/
structure QColor where
  red : Nat
  green : Nat
  blue : Nat

/-- Widget coordinates (`QPoint`). -/
structure QPoint where
  x : Int
  y : Int

/-- Index into the item model (`QModelIndex`); `hasModel` is false for the
default-constructed index. -/
structure QModelIndex where
  row : Int
  column : Int
  internalId : Int
  hasModel : Bool
  deriving DecidableEq, Repr

/-- The default-constructed `QModelIndex()`, Qt's invalid index. -/
def QModelIndex.invalid : QModelIndex := ⟨-1, -1, 0, false⟩

/-- Qt's `QModelIndex::isValid()`. -/
def QModelIndex.isValid (i : QModelIndex) : Bool :=
  decide (0 ≤ i.row) && decide (0 ≤ i.column) && i.hasModel

/-- The part of `NifModel` that glview.cpp calls while picking. -/
structure NifModel where
  getBlock : Int → QModelIndex
  getBlockOfType : QModelIndex → String → QModelIndex
  index : Int → Int → QModelIndex → QModelIndex

/-! ## Colour key (`::indexAt`, "Encode RGB to Int") -/

/-- The key built from the pixel read back from the framebuffer:
`int a = 0; a |= red << 0; a |= green << 8; a |= blue << 16;`. -/
def colorKey (pixel : QColor) : Nat :=
  let a := 0
  let a := a ||| (pixel.red <<< 0)
  let a := a ||| (pixel.green <<< 8)
  let a := a ||| (pixel.blue <<< 16)
  a

/-- The decode documented next to the encoder: `R = (id & 0x000000FF) >> 0`. -/
def decodeRed (id : Nat) : Nat := (id &&& 0x000000FF) >>> 0

/-- The decode documented next to the encoder: `G = (id & 0x0000FF00) >> 8`. -/
def decodeGreen (id : Nat) : Nat := (id &&& 0x0000FF00) >>> 8

/-- The decode documented next to the encoder: `B = (id & 0x00FF0000) >> 16`. -/
def decodeBlue (id : Nat) : Nat := (id &&& 0x00FF0000) >>> 16

/-! ## Qt settings (`QSettings`, `QVariant`) as a key-value store -/

/-- The values glview.cpp stores in a `QSettings`: check states, numbers and
action texts. -/
inductive QVariant (α : Type) where
  | bool (b : Bool)
  | num (v : α)
  | str (t : String)

/-- The settings store: what `value(key)` finds under each full key (group
prefixes written out, segments joined by `/`); `none` is an unset key. -/
abbrev QSettings (α : Type) := String → Option (QVariant α)

/-- The call `QSettings::setValue(key, value)`. -/
def QSettings.setValue {α : Type} (cfg : QSettings α) (key : String) (v : QVariant α) :
    QSettings α :=
  fun k => if k = key then some v else cfg k

/-- The call `QSettings::value(key)`; an unset key gives the invalid variant,
for which every conversion returns its null value. -/
def QSettings.value {α : Type} (cfg : QSettings α) (key : String) : Option (QVariant α) :=
  cfg key

/-- The call `QSettings::value(key, defaultValue)`. -/
def QSettings.valueD {α : Type} (cfg : QSettings α) (key : String) (dflt : QVariant α) :
    QVariant α :=
  (cfg key).getD dflt

/-! ## The scene and everything else outside glview.cpp -/

/-- The scene member functions a `DrawFunc` can point to. -/
inductive DrawFunc where
  | drawHavok | drawNodes | drawFurn | drawShapes
  deriving DecidableEq, Repr

/-- What glview.cpp reads from its `Scene`: `bounds()`, the products
`view * bounds()` and `view * Vector3()`, `timeMin()`, `timeMax()`, the list
`animGroups`, the current `animGroup` and the flag `animate`. -/
structure Scene (α : Type) where
  bounds : BoundSphere α
  viewBounds : BoundSphere α
  viewOrigin : Vector3 α
  timeMin : α
  timeMax : α
  animGroups : List String
  animGroup : String
  animate : Bool

/-- Code used by glview.cpp and defined elsewhere: the `Options` switches,
`BoundSphere::operator|=`, `Scene::setSequence`, `Scene::make` followed by
`Scene::transform`, the product `Matrix::euler(x, y, z).inverted() * v`, the
constant `PI`, libm's `tan`, the macro `COLORKEY2ID`, the image
`fbo.toImage()` the rasteriser leaves in the framebuffer, and the conversions
between numbers and strings inside `QVariant`; and the conversion `toFloat`
of a number computed in `double` to the `float` nearest to it. -/
structure Env (α : Type) where
  drawAxes : Bool
  benchmark : Bool
  drawHavok : Bool
  drawNodes : Bool
  drawFurn : Bool
  unite : BoundSphere α → BoundSphere α → BoundSphere α
  setSequence : Scene α → String → Scene α
  make : Scene α → Option NifModel → Scene α
  eulerInverted : α → α → α → Vector3 α → Vector3 α
  PI : α
  tan : α → α
  COLORKEY2ID : Int → Int
  fboImage : Scene α → List DrawFunc → QPoint → QColor
  numToString : α → String
  stringToNum : String → α
  toFloat : α → α

/-- Qt's `QVariant::toDouble()`; the invalid variant gives `0.0`. -/
def QVariant.toDouble {α : Type} [LinearOrderedField α] (env : Env α) :
    Option (QVariant α) → α
  | none => 0
  | some (.bool b) => if b then 1 else 0
  | some (.num v) => v
  | some (.str t) => env.stringToNum t

/-- Qt's `QVariant::toBool()`: a number is true when nonzero, a string unless
it is empty, `"0"` or `"false"` in lower case. -/
def QVariant.toBool {α : Type} [LinearOrderedField α] : QVariant α → Bool
  | .bool b => b
  | .num v => decide (v ≠ 0)
  | .str t => !(t.toLower == "" || t.toLower == "0" || t.toLower == "false")

/-- Qt's `QVariant::toString()`. -/
def QVariant.toString {α : Type} (env : Env α) : QVariant α → String
  | .bool b => if b then "true" else "false"
  | .num v => env.numToString v
  | .str t => t

/-! ## OpenGL calls -/

/-- The capabilities switched by `::indexAt`. -/
inductive GLCap where
  | GL_LIGHTING | GL_MULTISAMPLE | GL_MULTISAMPLE_ARB | GL_LINE_SMOOTH | GL_POINT_SMOOTH
  | GL_POLYGON_SMOOTH | GL_TEXTURE_1D | GL_TEXTURE_2D | GL_TEXTURE_3D | GL_BLEND
  | GL_DITHER | GL_FOG | GL_DEPTH_TEST
  deriving DecidableEq, Repr

/-- The two matrix stacks selected with `glMatrixMode`. -/
inductive MatrixMode where
  | GL_PROJECTION | GL_MODELVIEW
  deriving DecidableEq, Repr

/-- One call into OpenGL, the framebuffer object or the scene's drawing code,
as issued by `glProjection` and the two `indexAt` functions. -/
inductive GLCall (α : Type) where
  | makeCurrent
  | glPushAttrib
  | glPopAttrib
  | glMatrixMode (mode : MatrixMode)
  | glPushMatrix
  | glPopMatrix
  | glLoadIdentity
  | glViewport (x y w h : Int)
  | glFrustum (left right bottom top zNear zFar : α)
  | glOrtho (left right bottom top zNear zFar : α)
  | fboBind (w h : Int)
  | fboRelease
  | glEnable (cap : GLCap)
  | glDisable (cap : GLCap)
  | glShadeModelFlat
  | glDepthFuncLEqual
  | glClear
  | setSelecting (v : Nat)
  | sceneDraw (df : DrawFunc)

/-- The viewport rectangle returned by `glGetIntegerv( GL_VIEWPORT, .. )`. -/
structure Viewport where
  x : Int
  y : Int
  w : Int
  h : Int
  deriving DecidableEq, Repr

/-- The OpenGL context as far as glview.cpp observes it: the current
viewport, the viewports saved by `glPushAttrib`, and the list of all calls
issued so far, oldest first. -/
structure GLContext (α : Type) where
  viewport : Viewport
  attribStack : List Viewport
  calls : List (GLCall α)

/-- Issue one call: it is appended to `calls`; `glViewport` sets the viewport,
`glPushAttrib` saves it and `glPopAttrib` restores the one saved last. -/
def GLContext.call {α : Type} (c : GLContext α) (k : GLCall α) : GLContext α :=
  let c := { c with calls := c.calls ++ [k] }
  match k with
  | .glViewport x y w h => { c with viewport := ⟨x, y, w, h⟩ }
  | .glPushAttrib => { c with attribStack := c.viewport :: c.attribStack }
  | .glPopAttrib =>
    match c.attribStack with
    | v :: rest => { c with viewport := v, attribStack := rest }
    | [] => c
  | _ => c

/-! ## The widget -/

/-- The checkable actions of `grpView`, in the order they are added. -/
inductive QAction where
  | aViewTop | aViewFront | aViewSide | aViewUser | aViewWalk | aViewFlip | aViewPerspective
  deriving DecidableEq, Repr

/-- The untranslated `text()` each action is created with. -/
def QAction.text : QAction → String
  | .aViewTop => "Top"
  | .aViewFront => "Front"
  | .aViewSide => "Side"
  | .aViewUser => "User"
  | .aViewWalk => "Walk"
  | .aViewFlip => "Flip"
  | .aViewPerspective => "Perspective"

/-- The list `grpView->actions()`. -/
def grpViewActions : List QAction :=
  [.aViewTop, .aViewFront, .aViewSide, .aViewUser, .aViewWalk, .aViewFlip, .aViewPerspective]

/-- The keys polled by `advanceGears` in the table `kbd`. -/
inductive Key where
  | Key_Up | Key_Down | Key_Left | Key_Right
  | Key_A | Key_D | Key_W | Key_S | Key_F | Key_R | Key_Q | Key_E
  | Key_PageUp | Key_PageDown
  deriving DecidableEq, Repr

/-- The members of `GLView` (and of the widget and GL context under it) that
the modelled functions read or write.  An action member holds its check state,
`lastTime` is a `QTime` in milliseconds, `cfg` is the application-wide store a
default-constructed `QSettings` opens and `glctx` is the OpenGL context.
The value of `QTime::currentTime()` is an argument of the functions reading it. -/
structure GLView (α : Type) where
  Zoom : α
  Dist : α
  Rot : Vector3 α
  Pos : Vector3 α
  axis : α
  time : α
  lastTime : Int
  fpsacc : α
  fpscnt : Int
  timerInterval : Int
  doCenter : Bool
  doCompile : Bool
  model : Option NifModel
  visible : Bool
  width : Int
  height : Int
  scene : Scene α
  aViewTop : Bool
  aViewFront : Bool
  aViewSide : Bool
  aViewUser : Bool
  aViewWalk : Bool
  aViewFlip : Bool
  aViewPerspective : Bool
  aAnimate : Bool
  aAnimPlay : Bool
  aAnimLoop : Bool
  aAnimSwitch : Bool
  animGroupsItems : List String
  animGroupsCurrentIndex : Int
  kbd : Key → Bool
  mouseMov : Vector3 α
  mouseRot : Vector3 α
  cfg : QSettings α
  glctx : GLContext α

section Operations

variable {α : Type} [LinearOrderedField α]

/-- Qt's `QList<QString>::indexOf`: position of the first occurrence, `-1` if absent. -/
def indexOf (l : List String) (t : String) : Int :=
  if l.indexOf t < l.length then (l.indexOf t : Int) else -1

/-- Qt's `QList<QString>::value(i)`: the entry at `i`, a null string out of range. -/
def value (l : List String) (i : Int) : String :=
  if 0 ≤ i ∧ i < (l.length : Int) then l.getD i.toNat "" else ""

/-- Qt's `QTime::msecsTo`: milliseconds from `self` to `t`. -/
def msecsTo (self t : Int) : Int := t - self

/-- Member function `GLView::setDistance`. -/
def GLView.setDistance (s : GLView α) (x : α) : GLView α :=
  { s with Dist := x }

/-- Member function `GLView::setPosition( float, float, float )`. -/
def GLView.setPosition (s : GLView α) (x y z : α) : GLView α :=
  { s with Pos := ⟨x, y, z⟩ }

/-- Member function `GLView::setPosition( Vector3 )`. -/
def GLView.setPositionV (s : GLView α) (v : Vector3 α) : GLView α :=
  { s with Pos := v }

/-- Member function `GLView::setRotation`. -/
def GLView.setRotation (s : GLView α) (x y z : α) : GLView α :=
  { s with Rot := ⟨x, y, z⟩ }

/-- Member function `GLView::setZoom`. -/
def GLView.setZoom (s : GLView α) (z : α) : GLView α :=
  { s with Zoom := z }

/-- Member function `GLView::zoom`: multiply, then clamp from below and above. -/
def GLView.zoom (s : GLView α) (z : α) : GLView α :=
  let s := { s with Zoom := s.Zoom * z }
  let s := if s.Zoom < ZOOM_MIN α then { s with Zoom := ZOOM_MIN α } else s
  let s := if s.Zoom > ZOOM_MAX α then { s with Zoom := ZOOM_MAX α } else s
  s

/-- The check state `act->isChecked()` of a view action. -/
def GLView.isChecked (s : GLView α) : QAction → Bool
  | .aViewTop => s.aViewTop
  | .aViewFront => s.aViewFront
  | .aViewSide => s.aViewSide
  | .aViewUser => s.aViewUser
  | .aViewWalk => s.aViewWalk
  | .aViewFlip => s.aViewFlip
  | .aViewPerspective => s.aViewPerspective

/-- The call `act->setChecked( b )` on a view action. -/
def GLView.setChecked (s : GLView α) (act : QAction) (b : Bool) : GLView α :=
  match act with
  | .aViewTop => { s with aViewTop := b }
  | .aViewFront => { s with aViewFront := b }
  | .aViewSide => { s with aViewSide := b }
  | .aViewUser => { s with aViewUser := b }
  | .aViewWalk => { s with aViewWalk := b }
  | .aViewFlip => { s with aViewFlip := b }
  | .aViewPerspective => { s with aViewPerspective := b }

/-- Member function `GLView::checkedViewAction`; `none` is the null pointer. -/
def GLView.checkedViewAction (s : GLView α) : Option QAction :=
  if s.aViewTop then some .aViewTop
  else if s.aViewFront then some .aViewFront
  else if s.aViewSide then some .aViewSide
  else if s.aViewWalk then some .aViewWalk
  else if s.aViewUser then some .aViewUser
  else none

/-- Member function `GLView::uncheckViewAction`. -/
def GLView.uncheckViewAction (s : GLView α) : GLView α :=
  match s.checkedViewAction with
  | some act => if act ≠ .aViewWalk then s.setChecked act false else s
  | none => s

/-- Member function `GLView::rotate`. -/
def GLView.rotate (s : GLView α) (x y z : α) : GLView α :=
  let s := { s with Rot := s.Rot.add ⟨x, y, z⟩ }
  s.uncheckViewAction

/-- Member function `GLView::move`. -/
def GLView.move (env : Env α) (s : GLView α) (x y z : α) : GLView α :=
  let d := env.eulerInverted (s.Rot.x / 180 * env.PI) (s.Rot.y / 180 * env.PI)
    (s.Rot.z / 180 * env.PI) ⟨x, y, z⟩
  { s with Pos := s.Pos.add d }

/-- The five `setChecked` calls that close each branch of `viewAction`. -/
def GLView.setViewChecks (s : GLView α) (walk top front side user : Bool) : GLView α :=
  { s with aViewWalk := walk, aViewTop := top, aViewFront := front, aViewSide := side,
           aViewUser := user }

/-- Member function `GLView::viewAction`; `act = none` is the null pointer. -/
def GLView.viewAction (env : Env α) (s : GLView α) (act : Option QAction) : GLView α :=
  let bs := s.scene.bounds
  let bs := if env.drawAxes then env.unite bs ⟨Vector3.zero, s.axis⟩ else bs
  let bs := if bs.radius < 1 then { bs with radius := 1 } else bs
  let s := s.setDistance bs.radius
  let s := s.setZoom 1
  let s :=
    if act = some .aViewWalk then
      let s := s.setRotation (-90) 0 0
      let s := s.setPositionV (Vector3.zero.sub s.scene.bounds.center)
      let s := s.setZoom 1
      s.setViewChecks true false false false false
    else s
  let act := if act = none ∨ act = some .aViewFlip then s.checkedViewAction else act
  let s := if act ≠ some .aViewWalk then s.setPositionV (Vector3.zero.sub bs.center) else s
  if act = some .aViewTop then
    let s := if s.aViewFlip then s.setRotation 180 0 0 else s.setRotation 0 0 0
    s.setViewChecks false true false false false
  else if act = some .aViewFront then
    let s := if s.aViewFlip then s.setRotation (-90) 0 180 else s.setRotation (-90) 0 0
    s.setViewChecks false false true false false
  else if act = some .aViewSide then
    let s := if s.aViewFlip then s.setRotation (-90) 0 (-90) else s.setRotation (-90) 0 90
    s.setViewChecks false false false true false
  else if act = some .aViewUser then
    let s := s.setRotation (QVariant.toDouble env (s.cfg.value "GLView/User View/RotX"))
      (QVariant.toDouble env (s.cfg.value "GLView/User View/RotY"))
      (QVariant.toDouble env (s.cfg.value "GLView/User View/RotZ"))
    let s := s.setPosition (QVariant.toDouble env (s.cfg.value "GLView/User View/PosX"))
      (QVariant.toDouble env (s.cfg.value "GLView/User View/PosY"))
      (QVariant.toDouble env (s.cfg.value "GLView/User View/PosZ"))
    let s := s.setDistance (QVariant.toDouble env (s.cfg.value "GLView/User View/Dist"))
    s.setViewChecks false false false false true
  else s

/-- Member function `GLView::sltTime`. -/
def GLView.sltTime (s : GLView α) (t : α) : GLView α :=
  { s with time := t }

/-- Member function `GLView::sltSequence`. -/
def GLView.sltSequence (env : Env α) (s : GLView α) (seqname : String) : GLView α :=
  let s := { s with animGroupsCurrentIndex := indexOf s.scene.animGroups seqname }
  let s := { s with scene := env.setSequence s.scene seqname }
  { s with time := s.scene.timeMin }

/-- Member function `GLView::sltSaveUserView`. -/
def GLView.sltSaveUserView (env : Env α) (s : GLView α) : GLView α :=
  let cfg := s.cfg
  let cfg := cfg.setValue "GLView/User View/RotX" (.num s.Rot.x)
  let cfg := cfg.setValue "GLView/User View/RotY" (.num s.Rot.y)
  let cfg := cfg.setValue "GLView/User View/RotZ" (.num s.Rot.z)
  let cfg := cfg.setValue "GLView/User View/PosX" (.num s.Pos.x)
  let cfg := cfg.setValue "GLView/User View/PosY" (.num s.Pos.y)
  let cfg := cfg.setValue "GLView/User View/PosZ" (.num s.Pos.z)
  let cfg := cfg.setValue "GLView/User View/Dist" (.num s.Dist)
  GLView.viewAction env { s with cfg := cfg } (some .aViewUser)

/-- Member function `GLView::checkActions`; `now` is `QTime::currentTime()`. -/
def GLView.checkActions (env : Env α) (s : GLView α) (now : Int) : GLView α :=
  let s := { s with scene := { s.scene with animate := s.aAnimate } }
  let s := { s with lastTime := now }
  if env.benchmark then { s with timerInterval := 0 }
  else { s with timerInterval := 1000 / (FPS : Int) }

/-- The animation block of `advanceGears` (`if ( aAnimate->isChecked() && ... )`):
add `dT` to `time`; past `timeMax`, switch to the next sequence or loop. -/
def GLView.advanceTime (env : Env α) (s : GLView α) (dT : α) : GLView α :=
  if s.aAnimate && s.aAnimPlay && decide (s.scene.timeMin ≠ s.scene.timeMax) then
    let s := { s with time := s.time + dT }
    if s.time > s.scene.timeMax then
      if s.aAnimSwitch && !s.scene.animGroups.isEmpty then
        let ix := indexOf s.scene.animGroups s.scene.animGroup
        let ix := ix + 1
        let ix := if ix ≥ (s.scene.animGroups.length : Int) then
          ix - (s.scene.animGroups.length : Int) else ix
        GLView.sltSequence env s (value s.scene.animGroups ix)
      else if s.aAnimLoop then
        { s with time := s.scene.timeMin }
      else s
    else s
  else s

/-- The keyboard lines of `advanceGears` (`if ( kbd[ key ] ) call;`), in source
order: rotation, movement, zoom (distance) and focal length. -/
def keyActions (env : Env α) (dT : α) : List (Key × (GLView α → GLView α)) :=
  [ (.Key_Up, fun s => s.rotate (-(ROT_SPD α) * dT) 0 0),
    (.Key_Down, fun s => s.rotate (ROT_SPD α * dT) 0 0),
    (.Key_Left, fun s => s.rotate 0 0 (-(ROT_SPD α) * dT)),
    (.Key_Right, fun s => s.rotate 0 0 (ROT_SPD α * dT)),
    (.Key_A, fun s => GLView.move env s (MOV_SPD α * dT) 0 0),
    (.Key_D, fun s => GLView.move env s (-(MOV_SPD α) * dT) 0 0),
    (.Key_W, fun s => GLView.move env s 0 0 (MOV_SPD α * dT)),
    (.Key_S, fun s => GLView.move env s 0 0 (-(MOV_SPD α) * dT)),
    (.Key_F, fun s => GLView.move env s 0 (MOV_SPD α * dT) 0),
    (.Key_R, fun s => GLView.move env s 0 (-(MOV_SPD α) * dT) 0),
    (.Key_Q, fun s => s.setDistance (s.Dist * 1 / (11 / 10))),
    (.Key_E, fun s => s.setDistance (s.Dist * (11 / 10))),
    (.Key_PageUp, fun s => s.zoom (11 / 10)),
    (.Key_PageDown, fun s => s.zoom (1 / (11 / 10))) ]

/-- Run the keyboard lines one after the other. -/
def GLView.advanceKeys (env : Env α) (s : GLView α) (dT : α) : GLView α :=
  (keyActions env dT).foldl (fun s ka => if s.kbd ka.1 then ka.2 s else s) s

/-- The last two blocks of `advanceGears`: apply and reset the accumulated
mouse movement and mouse rotation. -/
def GLView.advanceMouse (env : Env α) (s : GLView α) : GLView α :=
  let s :=
    if s.mouseMov.x ≠ 0 ∨ s.mouseMov.y ≠ 0 ∨ s.mouseMov.z ≠ 0 then
      let s := GLView.move env s s.mouseMov.x s.mouseMov.y s.mouseMov.z
      { s with mouseMov := Vector3.zero }
    else s
  if s.mouseRot.x ≠ 0 ∨ s.mouseRot.y ≠ 0 ∨ s.mouseRot.z ≠ 0 then
    let s := s.rotate s.mouseRot.x s.mouseRot.y s.mouseRot.z
    { s with mouseRot := Vector3.zero }
  else s

/-- Member function `GLView::advanceGears` from the line after
`float dT = lastTime.msecsTo( t ) / 1000.0;` on; `t` is `QTime::currentTime()`. -/
def GLView.advanceGearsFrom (env : Env α) (s : GLView α) (t : Int) (dT : α) : GLView α :=
  let s := if env.benchmark then { s with fpsacc := s.fpsacc + dT, fpscnt := s.fpscnt + 1 }
    else s
  let dT := if dT < 0 then 0 else dT
  let dT := if dT > 1 then 1 else dT
  let s := { s with lastTime := t }
  if !s.visible then s
  else
    let s := GLView.advanceTime env s dT
    let s := GLView.advanceKeys env s dT
    GLView.advanceMouse env s

/-- Member function `GLView::advanceGears`; `t` is `QTime::currentTime()`.  The
first line, `float dT = lastTime.msecsTo( t ) / 1000.0;`, stores the quotient
in a `float`. -/
def GLView.advanceGears (env : Env α) (s : GLView α) (t : Int) : GLView α :=
  GLView.advanceGearsFrom env s t (env.toFloat (((msecsTo s.lastTime t : Int) : α) / 1000))

/-- Member function `GLView::save`: returns the settings object written to. -/
def GLView.save (s : GLView α) (settings : QSettings α) : QSettings α :=
  let settings := settings.setValue "GLView/Enable Animations" (.bool s.aAnimate)
  let settings := settings.setValue "GLView/Play Animation" (.bool s.aAnimPlay)
  let settings := settings.setValue "GLView/Loop Animation" (.bool s.aAnimLoop)
  let settings := settings.setValue "GLView/Switch Animation" (.bool s.aAnimSwitch)
  let settings := settings.setValue "GLView/Perspective" (.bool s.aViewPerspective)
  match s.checkedViewAction with
  | some act => settings.setValue "GLView/View Action" (.str act.text)
  | none => settings

/-- Member function `GLView::restore`; `now` is the `QTime::currentTime()` read
by `checkActions`. -/
def GLView.restore (env : Env α) (s : GLView α) (settings : QSettings α) (now : Int) :
    GLView α :=
  let s := { s with aAnimate := (settings.valueD "GLView/Enable Animations" (.bool true)).toBool }
  let s := { s with aAnimPlay := (settings.valueD "GLView/Play Animation" (.bool true)).toBool }
  let s := { s with aAnimLoop := (settings.valueD "GLView/Loop Animation" (.bool true)).toBool }
  let s := { s with
    aAnimSwitch := (settings.valueD "GLView/Switch Animation" (.bool true)).toBool }
  let s := { s with
    aViewPerspective := (settings.valueD "GLView/Perspective" (.bool true)).toBool }
  let s := GLView.checkActions env s now
  let viewAct := (settings.valueD "GLView/View Action" (.str "Front")).toString env
  grpViewActions.foldl
    (fun s act => if act.text = viewAct then GLView.viewAction env s (some act) else s) s

/-- The exact value of the single-precision literal `0.00001f`, which is
`2748779 / 2^38` (about `9.99999975e-6`, a little below `0.00001`). -/
def clipEpsilon (α : Type) [LinearOrderedField α] : α := 2748779 / 274877906944

/-- The perspective branch of `glProjection` between the computation of
`nr`, `fr` and the call of `glFrustum`: lower clamps, swap through the
temporary `GLfloat tmp` (`tmp = nr; nr = fr; fr = tmp;`), and the reset when
`fr - nr` is below `0.00001f`. -/
def perspectiveClip (env : Env α) (nr fr : α) : α × α :=
  let nr := if nr < 1 then 1 else nr
  let fr := if fr < 2 then 2 else fr
  let p : α × α := if nr > fr then (fr, env.toFloat nr) else (nr, fr)
  if p.2 - p.1 < clipEpsilon α then (1, 2) else p

/-- The sphere `bs` of `glProjection`: `scene->view * scene->bounds()`, united
with the axes' sphere when `Options::drawAxes()` is set. -/
def GLView.projectionBounds (s : GLView α) (env : Env α) : BoundSphere α :=
  let bs := s.scene.viewBounds
  if env.drawAxes then env.unite bs ⟨s.scene.viewOrigin, s.axis⟩ else bs

/-- Member function `GLView::glProjection`. -/
def GLView.glProjection (env : Env α) (s : GLView α) (_x _y : Int) : GLView α :=
  let viewport := s.glctx.viewport
  let aspect : α := (viewport.w : α) / (viewport.h : α)
  let gl := s.glctx.call (.glMatrixMode .GL_PROJECTION)
  let gl := gl.call .glLoadIdentity
  let bs := s.projectionBounds env
  let nr := |bs.center.z| - bs.radius * (12 / 10)
  let fr := |bs.center.z| + bs.radius * (12 / 10)
  let gl :=
    if s.aViewPerspective || s.aViewWalk then
      let p := perspectiveClip env nr fr
      let h2 := env.tan ((FOV α / s.Zoom) / 360 * M_PI α) * p.1
      let w2 := h2 * aspect
      gl.call (.glFrustum (-w2) w2 (-h2) h2 p.1 p.2)
    else
      let h2 := s.Dist / s.Zoom
      let w2 := h2 * aspect
      gl.call (.glOrtho (-w2) w2 (-h2) h2 nr fr)
  let gl := gl.call (.glMatrixMode .GL_MODELVIEW)
  let gl := gl.call .glLoadIdentity
  { s with glctx := gl }

/-- The state changes `::indexAt` makes before rasterising, in source order. -/
def pickingSetup : List (GLCall α) :=
  [ .glEnable .GL_LIGHTING, .glDisable .GL_MULTISAMPLE, .glDisable .GL_MULTISAMPLE_ARB,
    .glDisable .GL_LINE_SMOOTH, .glDisable .GL_POINT_SMOOTH, .glDisable .GL_POLYGON_SMOOTH,
    .glDisable .GL_TEXTURE_1D, .glDisable .GL_TEXTURE_2D, .glDisable .GL_TEXTURE_3D,
    .glDisable .GL_BLEND, .glDisable .GL_DITHER, .glDisable .GL_FOG, .glDisable .GL_LIGHTING,
    .glShadeModelFlat, .glEnable .GL_DEPTH_TEST, .glDepthFuncLEqual, .glClear ]

/-- The free function `::indexAt`: render the scene with colour keys into a
framebuffer object, read the pixel under `pos`, encode it and map the key to a
block number; returns `choose`, the out-parameter `furn` and the context.
The debug-only `img.save( "fbo.png" )` writes a file and is left out. -/
def indexAt (env : Env α) (gl : GLContext α) (model : NifModel) (scene : Scene α)
    (drawFunc : List DrawFunc) (_cycle : Int) (pos : QPoint) (furn : Int) :
    Int × Int × GLContext α :=
  let viewport := gl.viewport
  let gl := gl.call (.fboBind viewport.w viewport.h)
  let gl := pickingSetup.foldl GLContext.call gl
  let gl := gl.call (.setSelecting 1)
  let gl := drawFunc.foldl (fun g df => g.call (.sceneDraw df)) gl
  let gl := gl.call (.setSelecting 0)
  let gl := gl.call .fboRelease
  let pixel := env.fboImage scene drawFunc pos
  let a := colorKey pixel
  let choose := env.COLORKEY2ID (a : Int)
  if choose > 0 then
    let furnBlock := model.getBlockOfType
      (model.index 3 0 (model.getBlock ((choose.toNat &&& 0x0ffff : Nat) : Int)))
      "BSFurnitureMarker"
    if furnBlock.isValid then
      (((choose.toNat &&& 0x0ffff : Nat) : Int), ((choose.toNat >>> 16 : Nat) : Int), gl)
    else (choose, furn, gl)
  else (choose, furn, gl)

/-- The list `QList<DrawFunc> df` that `GLView::indexAt` fills from the options. -/
def drawFuncs (env : Env α) : List DrawFunc :=
  let df : List DrawFunc := []
  let df := if env.drawHavok then df ++ [.drawHavok] else df
  let df := if env.drawNodes then df ++ [.drawNodes] else df
  let df := if env.drawFurn then df ++ [.drawFurn] else df
  df ++ [.drawShapes]

/-- Member function `GLView::indexAt`: the index picked and the widget after
the call. -/
def GLView.indexAt (env : Env α) (s : GLView α) (pos : QPoint) (cycle : Int) :
    QModelIndex × GLView α :=
  match s.model with
  | none => (QModelIndex.invalid, s)
  | some model =>
    if !(s.visible && decide (s.height ≠ 0)) then (QModelIndex.invalid, s)
    else
      let gl := s.glctx.call .makeCurrent
      let gl := gl.call .glPushAttrib
      let gl := gl.call (.glMatrixMode .GL_PROJECTION)
      let gl := gl.call .glPushMatrix
      let gl := gl.call (.glMatrixMode .GL_MODELVIEW)
      let gl := gl.call .glPushMatrix
      let gl := gl.call (.glViewport 0 0 s.width s.height)
      let s := GLView.glProjection env { s with glctx := gl } pos.x pos.y
      let df := drawFuncs env
      let r := NifSkope.indexAt env s.glctx model s.scene df cycle pos (-1)
      let choose := r.1
      let furn := r.2.1
      let gl := r.2.2
      let gl := gl.call .glPopAttrib
      let gl := gl.call (.glMatrixMode .GL_MODELVIEW)
      let gl := gl.call .glPopMatrix
      let gl := gl.call (.glMatrixMode .GL_PROJECTION)
      let gl := gl.call .glPopMatrix
      let chooseIndex :=
        if choose ≠ -1 then
          let chooseIndex := model.getBlock choose
          if furn ≠ -1 then model.index furn 0 (model.index 3 0 chooseIndex)
          else chooseIndex
        else QModelIndex.invalid
      (chooseIndex, { s with glctx := gl })

/-- The block `if ( doCompile ) { ... }` of `GLView::paintGL`.  Its first
line, `textures->setNifFolder( model->getFolder() )`, dereferences `model`
without a test: on a null model the program crashes there, which is the
result `none`.  The texture cache that receives the folder is not part of the
record. -/
def GLView.paintGL_compile (env : Env α) (s : GLView α) : Option (GLView α) :=
  if s.doCompile then
    match s.model with
    | none => none
    | some _ =>
      let s : GLView α := { s with scene := env.make s.scene s.model }
      let axis : α :=
        if s.scene.bounds.radius < 0 then 1 else s.scene.bounds.radius * (14 / 10)
      let axis : α := if axis = 0 then 1 else axis
      let s := { s with axis := axis }
      let s := if s.time < s.scene.timeMin ∨ s.time > s.scene.timeMax then
        { s with time := s.scene.timeMin } else s
      let s := { s with animGroupsItems := s.scene.animGroups }
      let s := { s with
        animGroupsCurrentIndex := indexOf s.scene.animGroups s.scene.animGroup }
      some { s with doCompile := false }
  else some s

/-- The constructor `GLView::GLView`, as the assignments it makes to a freshly
allocated widget `w`: members it does not assign (`Dist`, `axis`, the scene,
the widget geometry) keep the value they have in `w`; vectors and the key
table are default-constructed; `now` is `QTime::currentTime()`. -/
def GLView.ctor (w : GLView α) (now : Int) : GLView α :=
  { w with
    Zoom := 1, doCenter := false, doCompile := false, model := none,
    time := 0, lastTime := now, fpsacc := 0, fpscnt := 0,
    timerInterval := 1000 / (FPS : Int),
    Rot := Vector3.zero, Pos := Vector3.zero,
    mouseMov := Vector3.zero, mouseRot := Vector3.zero, kbd := fun _ => false,
    aViewTop := false, aViewFront := true, aViewSide := false, aViewUser := false,
    aViewWalk := false, aViewFlip := false, aViewPerspective := false,
    aAnimate := true, aAnimPlay := true, aAnimLoop := true, aAnimSwitch := true,
    animGroupsItems := [], animGroupsCurrentIndex := -1 }

/-- A click on (or the shortcut of) a checkable action of `grpView`: Qt flips
its check state and then emits `QActionGroup::triggered`, which is connected
to `viewAction`. -/
def GLView.trigger (env : Env α) (s : GLView α) (act : QAction) : GLView α :=
  GLView.viewAction env (s.setChecked act (!s.isChecked act)) (some act)

/-- One step of the widget's life as far as the view actions are concerned:
a triggered view-group action, a `rotate` or a `restore`, each in any
environment and with any arguments. -/
inductive Step : GLView α → GLView α → Prop where
  | trigger (env : Env α) (s : GLView α) (act : QAction) : Step s (GLView.trigger env s act)
  | rotate (s : GLView α) (x y z : α) : Step s (s.rotate x y z)
  | restore (env : Env α) (s : GLView α) (settings : QSettings α) (now : Int) :
      Step s (GLView.restore env s settings now)

/-- The states reached from a constructed widget by finitely many steps. -/
inductive Reachable : GLView α → Prop where
  | ctor (w : GLView α) (now : Int) : Reachable (GLView.ctor w now)
  | step (s s' : GLView α) (hs : Reachable s) (h : Step s s') : Reachable s'

/-- The five mutually exclusive view modes among the actions of `grpView`. -/
def viewModes : List QAction :=
  [.aViewTop, .aViewFront, .aViewSide, .aViewUser, .aViewWalk]

/-- The view modes whose action is checked in `s`. -/
def GLView.checkedViewModes (s : GLView α) : List QAction :=
  viewModes.filter s.isChecked

/-- The seven keys of the group `GLView/User View`. -/
def userViewKeys : List String :=
  [ "GLView/User View/RotX", "GLView/User View/RotY", "GLView/User View/RotZ",
    "GLView/User View/PosX", "GLView/User View/PosY", "GLView/User View/PosZ",
    "GLView/User View/Dist" ]

end Operations

/-! ## Concrete values for evaluation over `ℚ` -/

/-- A scene with bounds of radius `5` around `(1, 2, 3)`, an animation running
from `0` to `10` and two sequences. -/
def sampleScene : Scene ℚ :=
  { bounds := ⟨⟨1, 2, 3⟩, 5⟩, viewBounds := ⟨⟨1, 2, -30⟩, 5⟩, viewOrigin := ⟨0, 0, -28⟩,
    timeMin := 0, timeMax := 10, animGroups := ["Idle", "Walk"], animGroup := "Idle",
    animate := true }

/-- A conversion to `float` for the examples: `0.7` goes to the nearest
`float`, `11744051 / 2^24`; every other number used in the examples is one a
`float` holds exactly and is left as it is. -/
def sampleFloat (x : ℚ) : ℚ :=
  if x = 7 / 10 then 11744051 / 16777216 else x

/-- An environment with every option off, a union that keeps the larger
sphere, `COLORKEY2ID( a ) = a - 1`, a white framebuffer and `sampleFloat`. -/
def sampleEnv : Env ℚ :=
  { drawAxes := false, benchmark := false, drawHavok := false, drawNodes := false,
    drawFurn := false,
    unite := fun a b => if a.radius < b.radius then b else a,
    setSequence := fun sc name => { sc with animGroup := name },
    make := fun sc _ => sc,
    eulerInverted := fun _ _ _ v => v,
    PI := 355 / 113,
    tan := fun a => a,
    COLORKEY2ID := fun a => a - 1,
    fboImage := fun _ _ _ => ⟨255, 255, 255⟩,
    numToString := fun _ => "0",
    stringToNum := fun _ => 0,
    toFloat := sampleFloat }

/-- A model whose blocks are the rows of a flat list. -/
def sampleModel : NifModel :=
  { getBlock := fun n => if 0 ≤ n then ⟨n, 0, n, true⟩ else QModelIndex.invalid,
    getBlockOfType := fun _ _ => QModelIndex.invalid,
    index := fun r c p => if p.isValid then ⟨r, c, p.internalId, true⟩ else QModelIndex.invalid }

/-- A freshly constructed, visible 800 x 600 widget showing `sampleScene`. -/
def sampleView : GLView ℚ :=
  GLView.ctor
    { Zoom := 0, Dist := 7, Rot := ⟨0, 0, 0⟩, Pos := ⟨0, 0, 0⟩, axis := 1, time := 0,
      lastTime := 0, fpsacc := 0, fpscnt := 0, timerInterval := 0, doCenter := false,
      doCompile := false, model := none, visible := true, width := 800, height := 600,
      scene := sampleScene, aViewTop := false, aViewFront := false, aViewSide := false,
      aViewUser := false, aViewWalk := false, aViewFlip := false, aViewPerspective := false,
      aAnimate := false, aAnimPlay := false, aAnimLoop := false, aAnimSwitch := false,
      animGroupsItems := [], animGroupsCurrentIndex := 0, kbd := fun _ => false,
      mouseMov := ⟨0, 0, 0⟩, mouseRot := ⟨0, 0, 0⟩, cfg := fun _ => none,
      glctx := ⟨⟨0, 0, 800, 600⟩, [], []⟩ }
    1000

/-! ## Colour key: encode and decode -/

/-- Masking with `m` shifted up and shifting back down is masking the shifted
value with `m`. -/
theorem and_shiftLeft_shiftRight (a m k : Nat) :
    (a &&& (m <<< k)) >>> k = (a >>> k) &&& m := by
  apply Nat.eq_of_testBit_eq
  intro i
  simp [Nat.testBit_shiftRight, Nat.testBit_shiftLeft]

/-- With red and green below 256 the three `|=` of the encoder add up the
channels in base 256. -/
theorem colorKey_eq_sum (pixel : QColor) (hr : pixel.red ≤ 255) (hg : pixel.green ≤ 255) :
    colorKey pixel = pixel.red + pixel.green * 256 + pixel.blue * 65536 := by
  unfold colorKey
  simp only [Nat.shiftLeft_zero, Nat.zero_or]
  have h1 : pixel.red ||| pixel.green <<< 8 = 2 ^ 8 * pixel.green + pixel.red := by
    rw [Nat.lor_comm, Nat.shiftLeft_eq, Nat.mul_comm]
    exact (Nat.mul_add_lt_is_or (by omega) pixel.green).symm
  have h2 : (2 ^ 8 * pixel.green + pixel.red) ||| pixel.blue <<< 16
      = 2 ^ 16 * pixel.blue + (2 ^ 8 * pixel.green + pixel.red) := by
    rw [Nat.lor_comm, Nat.shiftLeft_eq, Nat.mul_comm]
    exact (Nat.mul_add_lt_is_or (by omega) pixel.blue).symm
  rw [h1, h2]
  omega

/-- The red decode is the remainder modulo 256. -/
theorem decodeRed_eq (a : Nat) : decodeRed a = a % 256 := by
  unfold decodeRed
  rw [Nat.shiftRight_zero]
  exact Nat.and_pow_two_sub_one_eq_mod a 8

/-- The green decode is the second base-256 digit. -/
theorem decodeGreen_eq (a : Nat) : decodeGreen a = a / 256 % 256 := by
  unfold decodeGreen
  have h : (0x0000FF00 : Nat) = 0xFF <<< 8 := by decide
  rw [h, and_shiftLeft_shiftRight, Nat.shiftRight_eq_div_pow]
  exact Nat.and_pow_two_sub_one_eq_mod _ 8

/-- The blue decode is the third base-256 digit. -/
theorem decodeBlue_eq (a : Nat) : decodeBlue a = a / 65536 % 256 := by
  unfold decodeBlue
  have h : (0x00FF0000 : Nat) = 0xFF <<< 16 := by decide
  rw [h, and_shiftLeft_shiftRight, Nat.shiftRight_eq_div_pow]
  exact Nat.and_pow_two_sub_one_eq_mod _ 8

/-- C1: for a pixel with all three channels in `0..255` the key built by
`::indexAt` is below `2^24`, the documented decode returns the red, green and
blue channel, and any other such pixel with the same key is the same pixel. -/
theorem colorKey_roundtrip (pixel : QColor) (hr : pixel.red ≤ 255) (hg : pixel.green ≤ 255)
    (hb : pixel.blue ≤ 255) :
    colorKey pixel < 2 ^ 24 ∧
    decodeRed (colorKey pixel) = pixel.red ∧
    decodeGreen (colorKey pixel) = pixel.green ∧
    decodeBlue (colorKey pixel) = pixel.blue ∧
    ∀ other : QColor, other.red ≤ 255 → other.green ≤ 255 → other.blue ≤ 255 →
      colorKey other = colorKey pixel → other = pixel := by
  have hk := colorKey_eq_sum pixel hr hg
  refine ⟨by omega, ?_, ?_, ?_, ?_⟩
  · rw [decodeRed_eq]; omega
  · rw [decodeGreen_eq]; omega
  · rw [decodeBlue_eq]; omega
  · intro other hr' hg' hb' h
    rw [colorKey_eq_sum other hr' hg', hk] at h
    obtain ⟨r, g, b⟩ := other
    obtain ⟨r', g', b'⟩ := pixel
    simp only [QColor.mk.injEq] at *
    omega

/-- C1 at the pixel `(18, 52, 86)`, whose key is `0x563412`. -/
theorem colorKey_roundtrip_witness :
    colorKey ⟨18, 52, 86⟩ = 0x563412 ∧ decodeRed 0x563412 = 18 ∧ decodeGreen 0x563412 = 52 ∧
    decodeBlue 0x563412 = 86 ∧ colorKey ⟨18, 52, 86⟩ < 2 ^ 24 ∧
    decodeGreen (colorKey ⟨18, 52, 86⟩) = 52 :=
  ⟨by decide, by decide, by decide, by decide,
    (colorKey_roundtrip ⟨18, 52, 86⟩ (by decide) (by decide) (by decide)).1,
    (colorKey_roundtrip ⟨18, 52, 86⟩ (by decide) (by decide) (by decide)).2.2.1⟩

section Theorems

/-! ## Zoom -/

/-- C2: after `zoom(z)` the new `Zoom` is `Zoom * z` clamped to
`[ZOOM_MIN, ZOOM_MAX] = [1, 1000]`: it lies between 1 and 1000 and equals
`Zoom * z` whenever that product already lies in the interval. -/
theorem zoom_clamp {α : Type} [LinearOrderedField α] (s : GLView α) (z : α) :
    (s.zoom z).Zoom = max (ZOOM_MIN α) (min (ZOOM_MAX α) (s.Zoom * z)) ∧
    ZOOM_MIN α = 1 ∧ ZOOM_MAX α = 1000 ∧
    1 ≤ (s.zoom z).Zoom ∧ (s.zoom z).Zoom ≤ 1000 ∧
    (1 ≤ s.Zoom * z → s.Zoom * z ≤ 1000 → (s.zoom z).Zoom = s.Zoom * z) := by
  have hz : (s.zoom z).Zoom = max (1 : α) (min 1000 (s.Zoom * z)) := by
    simp only [GLView.zoom, ZOOM_MIN, ZOOM_MAX]
    by_cases h1 : s.Zoom * z < 1
    · have h2 : ¬ (1 : α) > 1000 := by norm_num
      have h3 : min (1000 : α) (s.Zoom * z) = s.Zoom * z := min_eq_right (by linarith)
      simp [h1, h2, h3, max_eq_left (le_of_lt h1)]
    · by_cases h2 : s.Zoom * z > 1000
      · have h3 : min (1000 : α) (s.Zoom * z) = 1000 := min_eq_left (le_of_lt h2)
        simp [h1, h2, h3]
      · have h3 : min (1000 : α) (s.Zoom * z) = s.Zoom * z := min_eq_right (not_lt.mp h2)
        simp [h1, h2, h3, max_eq_right (not_lt.mp h1)]
  refine ⟨by simpa only [ZOOM_MIN, ZOOM_MAX] using hz, rfl, rfl, ?_, ?_, ?_⟩
  · rw [hz]; exact le_max_left _ _
  · rw [hz]; exact max_le (by norm_num) (min_le_left _ _)
  · intro h1 h2
    rw [hz, min_eq_right h2, max_eq_right h1]

/-- C2 on the constructed sample widget (`Zoom = 1`): a factor 2000 is cut to
1000, a factor 1/2 is raised to 1, and a factor 3 is kept. -/
theorem zoom_clamp_witness :
    (sampleView.zoom 2000).Zoom = 1000 ∧ (sampleView.zoom (1 / 2)).Zoom = 1 ∧
    (sampleView.zoom 3).Zoom = sampleView.Zoom * 3 := by
  refine ⟨?_, ?_, (zoom_clamp sampleView 3).2.2.2.2.2 ?_ ?_⟩ <;>
    norm_num [sampleView, GLView.ctor, GLView.zoom, ZOOM_MIN, ZOOM_MAX]

/-! ## View presets -/

/-- C3: `viewAction` sets the rotation to `(0,0,0)`, `(-90,0,0)`, `(-90,0,90)`
for Top, Front, Side with Flip unchecked, to `(180,0,0)`, `(-90,0,180)`,
`(-90,0,-90)` with Flip checked, and to `(-90,0,0)` for Walk in both cases; the
flipped and the unflipped rotation of one preset differ in one component
only, by 180 degrees up to a multiple of 360. -/
theorem viewAction_preset_rotations {α : Type} [LinearOrderedField α] (env : Env α) (s : GLView α) :
    (GLView.viewAction env s (some .aViewTop)).Rot
      = (if s.aViewFlip then ⟨180, 0, 0⟩ else ⟨0, 0, 0⟩) ∧
    (GLView.viewAction env s (some .aViewFront)).Rot
      = (if s.aViewFlip then ⟨-90, 0, 180⟩ else ⟨-90, 0, 0⟩) ∧
    (GLView.viewAction env s (some .aViewSide)).Rot
      = (if s.aViewFlip then ⟨-90, 0, -90⟩ else ⟨-90, 0, 90⟩) ∧
    (GLView.viewAction env s (some .aViewWalk)).Rot = ⟨-90, 0, 0⟩ ∧
    ∀ (env' : Env α) (s' : GLView α), s.aViewFlip = false → s'.aViewFlip = true →
      ((GLView.viewAction env s (some .aViewTop)).Rot.x
          ≠ (GLView.viewAction env' s' (some .aViewTop)).Rot.x ∧
        (GLView.viewAction env s (some .aViewTop)).Rot.y
          = (GLView.viewAction env' s' (some .aViewTop)).Rot.y ∧
        (GLView.viewAction env s (some .aViewTop)).Rot.z
          = (GLView.viewAction env' s' (some .aViewTop)).Rot.z ∧
        ∃ k : Int, (GLView.viewAction env' s' (some .aViewTop)).Rot.x
          - (GLView.viewAction env s (some .aViewTop)).Rot.x = 180 + 360 * (k : α)) ∧
      ((GLView.viewAction env s (some .aViewFront)).Rot.x
          = (GLView.viewAction env' s' (some .aViewFront)).Rot.x ∧
        (GLView.viewAction env s (some .aViewFront)).Rot.y
          = (GLView.viewAction env' s' (some .aViewFront)).Rot.y ∧
        (GLView.viewAction env s (some .aViewFront)).Rot.z
          ≠ (GLView.viewAction env' s' (some .aViewFront)).Rot.z ∧
        ∃ k : Int, (GLView.viewAction env' s' (some .aViewFront)).Rot.z
          - (GLView.viewAction env s (some .aViewFront)).Rot.z = 180 + 360 * (k : α)) ∧
      ((GLView.viewAction env s (some .aViewSide)).Rot.x
          = (GLView.viewAction env' s' (some .aViewSide)).Rot.x ∧
        (GLView.viewAction env s (some .aViewSide)).Rot.y
          = (GLView.viewAction env' s' (some .aViewSide)).Rot.y ∧
        (GLView.viewAction env s (some .aViewSide)).Rot.z
          ≠ (GLView.viewAction env' s' (some .aViewSide)).Rot.z ∧
        ∃ k : Int, (GLView.viewAction env' s' (some .aViewSide)).Rot.z
          - (GLView.viewAction env s (some .aViewSide)).Rot.z = 180 + 360 * (k : α)) := by
  have top : ∀ (e : Env α) (v : GLView α), (GLView.viewAction e v (some .aViewTop)).Rot
      = (if v.aViewFlip then ⟨180, 0, 0⟩ else ⟨0, 0, 0⟩) := by
    intro e v
    cases hf : v.aViewFlip <;>
      simp [GLView.viewAction, GLView.setDistance, GLView.setZoom, GLView.setPositionV,
        GLView.setRotation, GLView.setViewChecks, hf]
  have front : ∀ (e : Env α) (v : GLView α), (GLView.viewAction e v (some .aViewFront)).Rot
      = (if v.aViewFlip then ⟨-90, 0, 180⟩ else ⟨-90, 0, 0⟩) := by
    intro e v
    cases hf : v.aViewFlip <;>
      simp [GLView.viewAction, GLView.setDistance, GLView.setZoom, GLView.setPositionV,
        GLView.setRotation, GLView.setViewChecks, hf]
  have side : ∀ (e : Env α) (v : GLView α), (GLView.viewAction e v (some .aViewSide)).Rot
      = (if v.aViewFlip then ⟨-90, 0, -90⟩ else ⟨-90, 0, 90⟩) := by
    intro e v
    cases hf : v.aViewFlip <;>
      simp [GLView.viewAction, GLView.setDistance, GLView.setZoom, GLView.setPositionV,
        GLView.setRotation, GLView.setViewChecks, hf]
  refine ⟨top env s, front env s, side env s, ?_, ?_⟩
  · simp [GLView.viewAction, GLView.setDistance, GLView.setZoom, GLView.setPositionV,
      GLView.setRotation, GLView.setViewChecks]
  · intro env' s' h0 h1
    rw [top env s, top env' s', front env s, front env' s', side env s, side env' s', h0, h1]
    refine ⟨⟨?_, rfl, rfl, 0, ?_⟩, ⟨rfl, rfl, ?_, 0, ?_⟩, ⟨rfl, rfl, ?_, -1, ?_⟩⟩ <;>
      norm_num

/-- C3 on the sample widget, Side preset: unflipped `z = 90`, flipped
`z = -90`, and the difference is `-180 = 180 - 360`. -/
theorem viewAction_preset_rotations_witness :
    (GLView.viewAction sampleEnv sampleView (some .aViewSide)).Rot.z = 90 ∧
    (GLView.viewAction sampleEnv (sampleView.setChecked .aViewFlip true)
      (some .aViewSide)).Rot.z = -90 ∧
    ∃ k : Int, (GLView.viewAction sampleEnv (sampleView.setChecked .aViewFlip true)
        (some .aViewSide)).Rot.z
      - (GLView.viewAction sampleEnv sampleView (some .aViewSide)).Rot.z
      = 180 + 360 * (k : ℚ) :=
  ⟨by rw [(viewAction_preset_rotations sampleEnv sampleView).2.2.1]; rfl,
    by rw [(viewAction_preset_rotations sampleEnv
      (sampleView.setChecked .aViewFlip true)).2.2.1]; rfl,
    ((viewAction_preset_rotations sampleEnv sampleView).2.2.2.2 sampleEnv
      (sampleView.setChecked .aViewFlip true) rfl rfl).2.2.2.2.2⟩

/-! ## User view -/

/-- C4: `sltSaveUserView` stores the current rotation, position and distance
under the seven keys of `GLView/User View`; any later `viewAction(aViewUser)`,
on any camera and in any environment, as long as those seven keys still hold
what was stored, sets `Rot`, `Pos` and `Dist` to the stored values; and
`sltSaveUserView` itself leaves `Rot`, `Pos` and `Dist` as they were. -/
theorem userView_roundtrip {α : Type} [LinearOrderedField α] (env : Env α) (s : GLView α) :
    (GLView.sltSaveUserView env s).cfg "GLView/User View/RotX" = some (.num s.Rot.x) ∧
    (GLView.sltSaveUserView env s).cfg "GLView/User View/RotY" = some (.num s.Rot.y) ∧
    (GLView.sltSaveUserView env s).cfg "GLView/User View/RotZ" = some (.num s.Rot.z) ∧
    (GLView.sltSaveUserView env s).cfg "GLView/User View/PosX" = some (.num s.Pos.x) ∧
    (GLView.sltSaveUserView env s).cfg "GLView/User View/PosY" = some (.num s.Pos.y) ∧
    (GLView.sltSaveUserView env s).cfg "GLView/User View/PosZ" = some (.num s.Pos.z) ∧
    (GLView.sltSaveUserView env s).cfg "GLView/User View/Dist" = some (.num s.Dist) ∧
    (∀ (env' : Env α) (later : GLView α),
      (∀ k ∈ userViewKeys, later.cfg k = (GLView.sltSaveUserView env s).cfg k) →
      (GLView.viewAction env' later (some .aViewUser)).Rot = s.Rot ∧
      (GLView.viewAction env' later (some .aViewUser)).Pos = s.Pos ∧
      (GLView.viewAction env' later (some .aViewUser)).Dist = s.Dist) ∧
    (GLView.sltSaveUserView env s).Rot = s.Rot ∧
    (GLView.sltSaveUserView env s).Pos = s.Pos ∧
    (GLView.sltSaveUserView env s).Dist = s.Dist := by
  have hcfg : ∀ k, (GLView.sltSaveUserView env s).cfg k =
      (((((((s.cfg.setValue "GLView/User View/RotX" (.num s.Rot.x)).setValue
        "GLView/User View/RotY" (.num s.Rot.y)).setValue
        "GLView/User View/RotZ" (.num s.Rot.z)).setValue
        "GLView/User View/PosX" (.num s.Pos.x)).setValue
        "GLView/User View/PosY" (.num s.Pos.y)).setValue
        "GLView/User View/PosZ" (.num s.Pos.z)).setValue
        "GLView/User View/Dist" (.num s.Dist)) k := by
    intro k
    simp [GLView.sltSaveUserView, GLView.viewAction, GLView.setDistance, GLView.setZoom,
      GLView.setPositionV, GLView.setPosition, GLView.setRotation, GLView.setViewChecks]
  have user : ∀ (e : Env α) (v : GLView α),
      (GLView.viewAction e v (some .aViewUser)).Rot
        = ⟨QVariant.toDouble e (v.cfg "GLView/User View/RotX"),
           QVariant.toDouble e (v.cfg "GLView/User View/RotY"),
           QVariant.toDouble e (v.cfg "GLView/User View/RotZ")⟩ ∧
      (GLView.viewAction e v (some .aViewUser)).Pos
        = ⟨QVariant.toDouble e (v.cfg "GLView/User View/PosX"),
           QVariant.toDouble e (v.cfg "GLView/User View/PosY"),
           QVariant.toDouble e (v.cfg "GLView/User View/PosZ")⟩ ∧
      (GLView.viewAction e v (some .aViewUser)).Dist
        = QVariant.toDouble e (v.cfg "GLView/User View/Dist") := by
    intro e v
    simp [GLView.viewAction, GLView.setDistance, GLView.setZoom, GLView.setPositionV,
      GLView.setPosition, GLView.setRotation, GLView.setViewChecks, QSettings.value]
  have hx : (GLView.sltSaveUserView env s).cfg "GLView/User View/RotX" = some (.num s.Rot.x) := by
    rw [hcfg]; simp [QSettings.setValue]
  have hy : (GLView.sltSaveUserView env s).cfg "GLView/User View/RotY" = some (.num s.Rot.y) := by
    rw [hcfg]; simp [QSettings.setValue]
  have hz : (GLView.sltSaveUserView env s).cfg "GLView/User View/RotZ" = some (.num s.Rot.z) := by
    rw [hcfg]; simp [QSettings.setValue]
  have px : (GLView.sltSaveUserView env s).cfg "GLView/User View/PosX" = some (.num s.Pos.x) := by
    rw [hcfg]; simp [QSettings.setValue]
  have py : (GLView.sltSaveUserView env s).cfg "GLView/User View/PosY" = some (.num s.Pos.y) := by
    rw [hcfg]; simp [QSettings.setValue]
  have pz : (GLView.sltSaveUserView env s).cfg "GLView/User View/PosZ" = some (.num s.Pos.z) := by
    rw [hcfg]; simp [QSettings.setValue]
  have hd : (GLView.sltSaveUserView env s).cfg "GLView/User View/Dist" = some (.num s.Dist) := by
    rw [hcfg]; simp [QSettings.setValue]
  have later : ∀ (env' : Env α) (v : GLView α),
      (∀ k ∈ userViewKeys, v.cfg k = (GLView.sltSaveUserView env s).cfg k) →
      (GLView.viewAction env' v (some .aViewUser)).Rot = s.Rot ∧
      (GLView.viewAction env' v (some .aViewUser)).Pos = s.Pos ∧
      (GLView.viewAction env' v (some .aViewUser)).Dist = s.Dist := by
    intro env' v hv
    obtain ⟨h1, h2, h3⟩ := user env' v
    rw [h1, h2, h3]
    rw [hv _ (by simp [userViewKeys]), hv "GLView/User View/RotY" (by simp [userViewKeys]),
      hv "GLView/User View/RotZ" (by simp [userViewKeys]),
      hv "GLView/User View/PosX" (by simp [userViewKeys]),
      hv "GLView/User View/PosY" (by simp [userViewKeys]),
      hv "GLView/User View/PosZ" (by simp [userViewKeys]),
      hv "GLView/User View/Dist" (by simp [userViewKeys]), hx, hy, hz, px, py, pz, hd]
    exact ⟨rfl, rfl, rfl⟩
  refine ⟨hx, hy, hz, px, py, pz, hd, later, ?_⟩
  have self := later env
    { s with cfg := (((((((s.cfg.setValue "GLView/User View/RotX" (.num s.Rot.x)).setValue
        "GLView/User View/RotY" (.num s.Rot.y)).setValue
        "GLView/User View/RotZ" (.num s.Rot.z)).setValue
        "GLView/User View/PosX" (.num s.Pos.x)).setValue
        "GLView/User View/PosY" (.num s.Pos.y)).setValue
        "GLView/User View/PosZ" (.num s.Pos.z)).setValue
        "GLView/User View/Dist" (.num s.Dist)) }
    (fun k _ => (hcfg k).symm)
  exact self

/-- C4 on the sample widget turned to `(10, 20, 30)`: after saving, a further
rotation by `(5, 5, 5)` is undone by `viewAction(aViewUser)`. -/
theorem userView_roundtrip_witness :
    (GLView.viewAction sampleEnv
      ((GLView.sltSaveUserView sampleEnv (sampleView.setRotation 10 20 30)).rotate 5 5 5)
      (some .aViewUser)).Rot = (sampleView.setRotation 10 20 30).Rot ∧
    (sampleView.setRotation 10 20 30).Rot.z = 30 :=
  ⟨((userView_roundtrip sampleEnv (sampleView.setRotation 10 20 30)).2.2.2.2.2.2.2.1 sampleEnv
      ((GLView.sltSaveUserView sampleEnv (sampleView.setRotation 10 20 30)).rotate 5 5 5)
      (fun _ _ => rfl)).1, rfl⟩

/-! ## Animation time -/

/-- Unchecking a view action leaves the animation time alone. -/
theorem uncheckViewAction_time {α : Type} (s : GLView α) : s.uncheckViewAction.time = s.time := by
  unfold GLView.uncheckViewAction
  cases h : s.checkedViewAction with
  | none => rfl
  | some act => cases act <;> simp [GLView.setChecked]

/-- Rotating the camera leaves the animation time alone. -/
theorem rotate_time {α : Type} [LinearOrderedField α] (s : GLView α) (x y z : α) : (s.rotate x y z).time = s.time := by
  unfold GLView.rotate
  rw [uncheckViewAction_time]

/-- Zooming leaves the animation time alone. -/
theorem zoom_time {α : Type} [LinearOrderedField α] (s : GLView α) (z : α) : (s.zoom z).time = s.time := by
  simp only [GLView.zoom]
  split_ifs <;> rfl

/-- Every keyboard line of `advanceGears` leaves the animation time alone. -/
theorem keyActions_time {α : Type} [LinearOrderedField α] (env : Env α) (dT : α) :
    ∀ ka ∈ keyActions env dT, ∀ s : GLView α, (ka.2 s).time = s.time := by
  intro ka hka s
  simp only [keyActions, List.mem_cons, List.mem_singleton, List.not_mem_nil, or_false] at hka
  rcases hka with h | h | h | h | h | h | h | h | h | h | h | h | h | h <;> subst h <;>
    first
      | exact rotate_time _ _ _ _
      | exact zoom_time _ _
      | rfl

/-- Running a list of guarded calls that each keep the time keeps the time. -/
theorem foldl_keys_time {α : Type} (l : List (Key × (GLView α → GLView α)))
    (hl : ∀ ka ∈ l, ∀ s : GLView α, (ka.2 s).time = s.time) (s : GLView α) :
    (l.foldl (fun s ka => if s.kbd ka.1 then ka.2 s else s) s).time = s.time := by
  induction l generalizing s with
  | nil => rfl
  | cons ka rest ih =>
    rw [List.foldl_cons, ih (fun k hk => hl k (List.mem_cons_of_mem _ hk))]
    split_ifs
    · exact hl ka (List.mem_cons_self _ _) s
    · rfl

/-- The keyboard part of `advanceGears` leaves the animation time alone. -/
theorem advanceKeys_time {α : Type} [LinearOrderedField α] (env : Env α) (s : GLView α) (dT : α) :
    (GLView.advanceKeys env s dT).time = s.time :=
  foldl_keys_time _ (keyActions_time env dT) s

/-- The mouse part of `advanceGears` leaves the animation time alone. -/
theorem advanceMouse_time {α : Type} [LinearOrderedField α] (env : Env α) (s : GLView α) :
    (GLView.advanceMouse env s).time = s.time := by
  simp only [GLView.advanceMouse]
  split_ifs <;> simp [rotate_time, GLView.move]

/-- The two `if`s on `dT` compute `min (max dT 0) 1`. -/
theorem clamp_dT {α : Type} [LinearOrderedField α] (dT : α) :
    (if (if dT < 0 then 0 else dT) > 1 then 1 else (if dT < 0 then 0 else dT))
      = min (max dT 0) 1 := by
  by_cases h0 : dT < 0
  · have h1 : ¬ (0 : α) > 1 := by norm_num
    simp [h0, h1, max_eq_right (le_of_lt h0)]
  · rw [if_neg h0, max_eq_left (not_lt.mp h0)]
    by_cases h1 : dT > 1
    · rw [if_pos h1, min_eq_right (le_of_lt h1)]
    · rw [if_neg h1, min_eq_left (not_lt.mp h1)]

/-- The time after the animation block depends on the widget only through
`time`, the four animation check states and the scene. -/
theorem advanceTime_time_congr {α : Type} [LinearOrderedField α] (env : Env α) (s s' : GLView α) (dT : α)
    (ht : s'.time = s.time) (hsc : s'.scene = s.scene) (ha : s'.aAnimate = s.aAnimate)
    (hp : s'.aAnimPlay = s.aAnimPlay) (hl : s'.aAnimLoop = s.aAnimLoop)
    (hw : s'.aAnimSwitch = s.aAnimSwitch) :
    (GLView.advanceTime env s' dT).time = (GLView.advanceTime env s dT).time := by
  simp only [GLView.advanceTime, GLView.sltSequence, ht, hsc, ha, hp, hl, hw]
  split_ifs <;> simp [ht]

/-- The time after `advanceGears`: untouched on a hidden widget, otherwise the
time after the animation block run with the clamped step. -/
theorem advanceGearsFrom_time {α : Type} [LinearOrderedField α] (env : Env α) (s : GLView α) (t : Int) (dT : α) :
    (GLView.advanceGearsFrom env s t dT).time
      = if s.visible then (GLView.advanceTime env s (min (max dT 0) 1)).time else s.time := by
  have key : ∀ v : GLView α, v.visible = s.visible → v.time = s.time → v.scene = s.scene →
      v.aAnimate = s.aAnimate → v.aAnimPlay = s.aAnimPlay → v.aAnimLoop = s.aAnimLoop →
      v.aAnimSwitch = s.aAnimSwitch →
      (if (!v.visible) = true then v
        else GLView.advanceMouse env (GLView.advanceKeys env
          (GLView.advanceTime env v (min (max dT 0) 1)) (min (max dT 0) 1))).time
        = if s.visible then (GLView.advanceTime env s (min (max dT 0) 1)).time else s.time := by
    intro v h1 h2 h3 h4 h5 h6 h7
    rw [h1]
    cases s.visible
    · simpa using h2
    · simp only [Bool.not_true, Bool.false_eq_true, if_false, if_true]
      rw [advanceMouse_time, advanceKeys_time]
      exact advanceTime_time_congr env s v _ h2 h3 h4 h5 h6 h7
  have h := key
    { (if env.benchmark then { s with fpsacc := s.fpsacc + dT, fpscnt := s.fpscnt + 1 } else s)
      with lastTime := t }
    (by dsimp only; split_ifs <;> rfl) (by dsimp only; split_ifs <;> rfl)
    (by dsimp only; split_ifs <;> rfl) (by dsimp only; split_ifs <;> rfl)
    (by dsimp only; split_ifs <;> rfl) (by dsimp only; split_ifs <;> rfl)
    (by dsimp only; split_ifs <;> rfl)
  simpa only [GLView.advanceGearsFrom, clamp_dT] using h

/-- With the gate closed the animation block does nothing. -/
theorem advanceTime_closed {α : Type} [LinearOrderedField α] (env : Env α) (s : GLView α) (dT : α)
    (h : s.aAnimate = false ∨ s.aAnimPlay = false ∨ s.scene.timeMin = s.scene.timeMax) :
    GLView.advanceTime env s dT = s := by
  unfold GLView.advanceTime
  rcases h with h | h | h <;> simp [h]

/-- C5: `advanceGears` leaves the animation time unchanged whenever the widget
is hidden, Animations is unchecked, Play is unchecked or `timeMin = timeMax`
(for the elapsed time of the call and for any other `dT`); so a changed time
means the widget is visible, both actions are checked and `timeMin ≠ timeMax`. -/
theorem advanceGears_gating {α : Type} [LinearOrderedField α] (env : Env α) (s : GLView α) (t : Int) :
    ((s.visible = false ∨ s.aAnimate = false ∨ s.aAnimPlay = false ∨
        s.scene.timeMin = s.scene.timeMax) →
      (GLView.advanceGears env s t).time = s.time ∧
      ∀ dT : α, (GLView.advanceGearsFrom env s t dT).time = s.time) ∧
    ((GLView.advanceGears env s t).time ≠ s.time →
      s.visible = true ∧ s.aAnimate = true ∧ s.aAnimPlay = true ∧
      s.scene.timeMin ≠ s.scene.timeMax) := by
  have closed : (s.visible = false ∨ s.aAnimate = false ∨ s.aAnimPlay = false ∨
      s.scene.timeMin = s.scene.timeMax) →
      ∀ dT : α, (GLView.advanceGearsFrom env s t dT).time = s.time := by
    intro h dT
    rw [advanceGearsFrom_time]
    rcases h with h | h
    · simp [h]
    · rw [advanceTime_closed env s _ h]; simp
  refine ⟨fun h => ⟨closed h _, closed h⟩, fun hne => ?_⟩
  by_contra hnot
  apply hne
  apply closed
  by_cases h1 : s.visible = true
  · by_cases h2 : s.aAnimate = true
    · by_cases h3 : s.aAnimPlay = true
      · by_cases h4 : s.scene.timeMin = s.scene.timeMax
        · exact Or.inr (Or.inr (Or.inr h4))
        · exact absurd ⟨h1, h2, h3, h4⟩ hnot
      · exact Or.inr (Or.inr (Or.inl (by simpa using h3)))
    · exact Or.inr (Or.inl (by simpa using h2))
  · exact Or.inl (by simpa using h1)

/-- C5 on the sample widget: with Play unchecked a tick half a second later
leaves the time at `0`, with Play checked the same tick moves it to `1/2`. -/
theorem advanceGears_gating_witness :
    (GLView.advanceGears sampleEnv { sampleView with aAnimPlay := false } 1500).time = 0 ∧
    (GLView.advanceGears sampleEnv sampleView 1500).time = 1 / 2 :=
  ⟨((advanceGears_gating sampleEnv { sampleView with aAnimPlay := false } 1500).1
      (Or.inr (Or.inr (Or.inl rfl)))).1,
    by
      rw [GLView.advanceGears, advanceGearsFrom_time]
      norm_num [GLView.advanceTime, sampleView, GLView.ctor, sampleScene, msecsTo, sampleEnv,
        sampleFloat]⟩

/-- The block number returned by `::indexAt` is `-1` exactly when the
colour-key lookup `COLORKEY2ID( a )` is `-1`, and then `furn` is left alone. -/
theorem indexAt_choose {α : Type} [LinearOrderedField α] (env : Env α) (gl : GLContext α)
    (model : NifModel) (scene : Scene α) (df : List DrawFunc) (cycle : Int) (pos : QPoint)
    (furn : Int) :
    ((NifSkope.indexAt env gl model scene df cycle pos furn).1 = -1 ↔
      env.COLORKEY2ID (colorKey (env.fboImage scene df pos) : Int) = -1) ∧
    ((NifSkope.indexAt env gl model scene df cycle pos furn).1 = -1 →
      (NifSkope.indexAt env gl model scene df cycle pos furn).2.1 = furn) := by
  simp only [NifSkope.indexAt]
  split_ifs with h1 h2
  · refine ⟨⟨fun h => ?_, fun h => ?_⟩, fun h => ?_⟩
    · simp only at h
    · omega
    · simp only at h
  · exact ⟨Iff.rfl, fun _ => rfl⟩
  · exact ⟨Iff.rfl, fun _ => rfl⟩

/-- The projection set-up does not touch the scene. -/
theorem glProjection_scene {α : Type} [LinearOrderedField α] (env : Env α) (s : GLView α)
    (x y : Int) : (GLView.glProjection env s x y).scene = s.scene :=
  rfl

/-- C7: without a model, on a hidden widget or with height 0, `indexAt`
returns the invalid index and leaves the widget, its GL context and its scene
exactly as they were (no call is issued); and when the colour-key lookup of the
free function `::indexAt` gives `-1` the result is the invalid index as well. -/
theorem indexAt_guard {α : Type} [LinearOrderedField α] (env : Env α) (s : GLView α)
    (pos : QPoint) (cycle : Int) :
    ((s.model = none ∨ s.visible = false ∨ s.height = 0) →
      GLView.indexAt env s pos cycle = (QModelIndex.invalid, s)) ∧
    (∀ (model : NifModel) (gl : GLContext α), s.model = some model →
      (NifSkope.indexAt env gl model s.scene (drawFuncs env) cycle pos (-1)).1 = -1 →
      (GLView.indexAt env s pos cycle).1 = QModelIndex.invalid) := by
  constructor
  · intro h
    unfold GLView.indexAt
    cases hm : s.model with
    | none => rfl
    | some model =>
      have hg : (!(s.visible && decide (s.height ≠ 0))) = true := by
        rcases h with h | h | h
        · rw [hm] at h; exact absurd h (by simp)
        · simp [h]
        · simp [h]
      simp only [hg, if_true]
  · intro model gl hm hc
    have hkey := (indexAt_choose env gl model s.scene (drawFuncs env) cycle pos (-1)).1.mp hc
    unfold GLView.indexAt
    simp only [hm]
    have hc' := fun g =>
      (indexAt_choose env g model s.scene (drawFuncs env) cycle pos (-1)).1.mpr hkey
    by_cases hg : (!(s.visible && decide (s.height ≠ 0))) = true
    · simp only [hg, if_true]
    · simp only [hg, if_false, glProjection_scene, hc', ne_eq, not_true_eq_false,
        Bool.false_eq_true]

/-- C7 on the sample widget: constructed without a model it picks nothing and
issues no GL call; with a model and a white framebuffer under
`COLORKEY2ID( a ) = a - 1` it picks block `0xFFFFFE`. -/
theorem indexAt_guard_witness :
    GLView.indexAt sampleEnv sampleView ⟨10, 10⟩ 0 = (QModelIndex.invalid, sampleView) ∧
    (GLView.indexAt sampleEnv { sampleView with model := some sampleModel } ⟨10, 10⟩ 0).1
      = ⟨0xFFFFFE, 0, 0xFFFFFE, true⟩ :=
  ⟨(indexAt_guard sampleEnv sampleView ⟨10, 10⟩ 0).1 (Or.inl rfl), by decide⟩

/-! ## View modes -/

/-- After `viewAction` on one of the five view modes exactly that mode is
checked. -/
theorem viewAction_mode {α : Type} [LinearOrderedField α] (env : Env α) (s : GLView α)
    (act : QAction) (h : act ∈ viewModes) :
    (GLView.viewAction env s (some act)).checkedViewModes = [act] := by
  simp only [viewModes, List.mem_cons, List.mem_singleton, List.not_mem_nil, or_false] at h
  rcases h with h | h | h | h | h <;> subst h <;> cases hf : s.aViewFlip <;>
    simp [GLView.viewAction, GLView.setDistance, GLView.setZoom, GLView.setPositionV,
      GLView.setPosition, GLView.setRotation, GLView.setViewChecks, GLView.checkedViewModes,
      GLView.checkedViewAction, viewModes, List.filter, GLView.isChecked, hf]

/-- Calling `viewAction` with the null pointer, Flip or Perspective never leaves more
than one view mode checked if at most one was checked before. -/
theorem viewAction_other {α : Type} [LinearOrderedField α] (env : Env α) (s : GLView α)
    (act : Option QAction)
    (ha : act = none ∨ act = some .aViewFlip ∨ act = some .aViewPerspective)
    (h : s.checkedViewModes.length ≤ 1) :
    (GLView.viewAction env s act).checkedViewModes.length ≤ 1 := by
  rcases ha with ha | ha | ha <;> subst ha <;>
    cases h1 : s.aViewTop <;> cases h2 : s.aViewFront <;> cases h3 : s.aViewSide <;>
    cases h4 : s.aViewUser <;> cases h5 : s.aViewWalk <;> cases h6 : s.aViewFlip <;>
    simp [GLView.viewAction, GLView.setDistance, GLView.setZoom, GLView.setPositionV,
      GLView.setPosition, GLView.setRotation, GLView.setViewChecks, GLView.checkedViewModes,
      GLView.checkedViewAction, viewModes, List.filter, GLView.isChecked,
      h1, h2, h3, h4, h5, h6] at h ⊢

/-- The checked view modes depend on the five mode actions only. -/
theorem checkedViewModes_congr {α : Type} (s s' : GLView α)
    (h1 : s'.aViewTop = s.aViewTop) (h2 : s'.aViewFront = s.aViewFront)
    (h3 : s'.aViewSide = s.aViewSide) (h4 : s'.aViewUser = s.aViewUser)
    (h5 : s'.aViewWalk = s.aViewWalk) : s'.checkedViewModes = s.checkedViewModes := by
  simp [GLView.checkedViewModes, viewModes, List.filter, GLView.isChecked, h1, h2, h3, h4, h5]

/-- Any `viewAction` keeps "at most one view mode checked", whatever its argument. -/
theorem viewAction_atMostOne {α : Type} [LinearOrderedField α] (env : Env α) (s : GLView α)
    (act : Option QAction) (h : s.checkedViewModes.length ≤ 1) :
    (GLView.viewAction env s act).checkedViewModes.length ≤ 1 := by
  cases act with
  | none => exact viewAction_other env s none (Or.inl rfl) h
  | some a =>
    cases a
    case aViewFlip => exact viewAction_other env s _ (Or.inr (Or.inl rfl)) h
    case aViewPerspective => exact viewAction_other env s _ (Or.inr (Or.inr rfl)) h
    all_goals
      rw [viewAction_mode env s _ (by simp [viewModes])]
      simp

/-- A triggered view-group action leaves at most one view mode checked. -/
theorem trigger_atMostOne {α : Type} [LinearOrderedField α] (env : Env α) (s : GLView α)
    (act : QAction) (h : s.checkedViewModes.length ≤ 1) :
    (GLView.trigger env s act).checkedViewModes.length ≤ 1 := by
  unfold GLView.trigger
  cases act
  case aViewFlip =>
    exact viewAction_atMostOne env _ _
      (by rw [checkedViewModes_congr s (s.setChecked .aViewFlip (!s.isChecked .aViewFlip))
        rfl rfl rfl rfl rfl]; exact h)
  case aViewPerspective =>
    exact viewAction_atMostOne env _ _
      (by rw [checkedViewModes_congr s
        (s.setChecked .aViewPerspective (!s.isChecked .aViewPerspective))
        rfl rfl rfl rfl rfl]; exact h)
  all_goals
    rw [viewAction_mode env _ _ (by simp [viewModes])]
    simp

/-- Any `rotate` leaves at most one view mode checked if at most one was before. -/
theorem rotate_atMostOne {α : Type} [LinearOrderedField α] (s : GLView α) (x y z : α)
    (h : s.checkedViewModes.length ≤ 1) : (s.rotate x y z).checkedViewModes.length ≤ 1 := by
  cases h1 : s.aViewTop <;> cases h2 : s.aViewFront <;> cases h3 : s.aViewSide <;>
    cases h4 : s.aViewUser <;> cases h5 : s.aViewWalk <;>
    simp [GLView.rotate, GLView.uncheckViewAction, GLView.checkedViewAction, GLView.setChecked,
      GLView.checkedViewModes, viewModes, List.filter, GLView.isChecked,
      h1, h2, h3, h4, h5] at h ⊢

/-- The loop of `restore` keeps "at most one view mode checked". -/
theorem restoreLoop_atMostOne {α : Type} [LinearOrderedField α] (env : Env α)
    (viewAct : String) (l : List QAction) (s : GLView α)
    (h : s.checkedViewModes.length ≤ 1) :
    (l.foldl (fun s act => if act.text = viewAct then GLView.viewAction env s (some act) else s)
      s).checkedViewModes.length ≤ 1 := by
  induction l generalizing s with
  | nil => exact h
  | cons a rest ih =>
    rw [List.foldl_cons]
    apply ih
    split_ifs
    · exact viewAction_atMostOne env s _ h
    · exact h

/-- Any `restore` leaves at most one view mode checked if at most one was before. -/
theorem restore_atMostOne {α : Type} [LinearOrderedField α] (env : Env α) (s : GLView α)
    (settings : QSettings α) (now : Int) (h : s.checkedViewModes.length ≤ 1) :
    (GLView.restore env s settings now).checkedViewModes.length ≤ 1 := by
  unfold GLView.restore
  apply restoreLoop_atMostOne
  rw [checkedViewModes_congr s _ (by simp only [GLView.checkActions]; split_ifs <;> rfl)
    (by simp only [GLView.checkActions]; split_ifs <;> rfl)
    (by simp only [GLView.checkActions]; split_ifs <;> rfl)
    (by simp only [GLView.checkActions]; split_ifs <;> rfl)
    (by simp only [GLView.checkActions]; split_ifs <;> rfl)]
  exact h

/-- C6: `viewAction` on Top, Front, Side, User or Walk leaves exactly that
action checked among the five; and every state reached from the constructor
(only Front checked) by triggered view-group actions, `rotate` and `restore`
has at most one of the five checked. -/
theorem viewMode_exclusive {α : Type} [LinearOrderedField α] :
    (∀ (env : Env α) (s : GLView α) (act : QAction), act ∈ viewModes →
      (GLView.viewAction env s (some act)).checkedViewModes = [act]) ∧
    (∀ (w : GLView α) (now : Int), (GLView.ctor w now).checkedViewModes = [.aViewFront]) ∧
    (∀ s : GLView α, Reachable s → s.checkedViewModes.length ≤ 1) := by
  refine ⟨viewAction_mode, fun w now => rfl, ?_⟩
  intro s hs
  induction hs with
  | ctor w now => exact Nat.le_refl 1
  | step a b _ hstep ih =>
    cases hstep with
    | trigger env _ act => exact trigger_atMostOne env a act ih
    | rotate _ x y z => exact rotate_atMostOne a x y z ih
    | restore env _ settings now => exact restore_atMostOne env a settings now ih

/-- C6 on the sample widget: clicking Top while Front is checked leaves only
Top checked, and the state after that click and a rotation is reachable and
has no view mode checked. -/
theorem viewMode_exclusive_witness :
    (GLView.trigger sampleEnv sampleView .aViewTop).checkedViewModes = [.aViewTop] ∧
    ((GLView.trigger sampleEnv sampleView .aViewTop).rotate 1 0 0).checkedViewModes.length ≤ 1 ∧
    ((GLView.trigger sampleEnv sampleView .aViewTop).rotate 1 0 0).checkedViewModes = [] :=
  ⟨(viewMode_exclusive (α := ℚ)).1 sampleEnv _ .aViewTop (by decide),
    (viewMode_exclusive (α := ℚ)).2.2 _
      (Reachable.step _ _ (Reachable.step _ _ (Reachable.ctor _ 1000)
        (Step.trigger sampleEnv _ .aViewTop)) (Step.rotate _ 1 0 0)),
    by decide⟩

/-! ## Settings -/

/-- The function `checkedViewAction` only ever returns one of the five view modes. -/
theorem checkedViewAction_mem {α : Type} (s : GLView α) (act : QAction)
    (h : s.checkedViewAction = some act) : act ∈ viewModes := by
  unfold GLView.checkedViewAction at h
  split_ifs at h <;> cases h <;> simp [viewModes]

/-- Calling `viewAction` on a view mode leaves the animation actions and Perspective
as they are. -/
theorem viewAction_keeps_flags {α : Type} [LinearOrderedField α] (env : Env α) (s : GLView α)
    (act : QAction) (h : act ∈ viewModes) :
    (GLView.viewAction env s (some act)).aAnimate = s.aAnimate ∧
    (GLView.viewAction env s (some act)).aAnimPlay = s.aAnimPlay ∧
    (GLView.viewAction env s (some act)).aAnimLoop = s.aAnimLoop ∧
    (GLView.viewAction env s (some act)).aAnimSwitch = s.aAnimSwitch ∧
    (GLView.viewAction env s (some act)).aViewPerspective = s.aViewPerspective := by
  simp only [viewModes, List.mem_cons, List.mem_singleton, List.not_mem_nil, or_false] at h
  rcases h with h | h | h | h | h <;> subst h <;> cases hf : s.aViewFlip <;>
    simp [GLView.viewAction, GLView.setDistance, GLView.setZoom, GLView.setPositionV,
      GLView.setPosition, GLView.setRotation, GLView.setViewChecks, hf]

/-- With the text of a view mode stored under `GLView/View Action`, the loop
of `restore` calls `viewAction` once, on that mode. -/
theorem restoreLoop_mode {α : Type} [LinearOrderedField α] (env : Env α) (s : GLView α)
    (act : QAction) (h : act ∈ viewModes) :
    grpViewActions.foldl
      (fun s a => if a.text = act.text then GLView.viewAction env s (some a) else s) s
      = GLView.viewAction env s (some act) := by
  simp only [viewModes, List.mem_cons, List.mem_singleton, List.not_mem_nil, or_false] at h
  rcases h with h | h | h | h | h <;> subst h <;>
    simp [grpViewActions, QAction.text]

/-- C8: if `act` is the view action `save` finds checked (the one checked
action among Top, Front, Side, User, Walk), then `save` into any settings
object followed by `restore` from it on any widget `w`, in any environment,
leaves the Animations, Play, Loop, Switch and Perspective actions of `w` in the
saved state and exactly `act` checked among the five view modes. -/
theorem save_restore {α : Type} [LinearOrderedField α] (env : Env α) (s w : GLView α)
    (settings : QSettings α) (now : Int) (act : QAction)
    (h : s.checkedViewAction = some act) :
    (GLView.restore env w (s.save settings) now).aAnimate = s.aAnimate ∧
    (GLView.restore env w (s.save settings) now).aAnimPlay = s.aAnimPlay ∧
    (GLView.restore env w (s.save settings) now).aAnimLoop = s.aAnimLoop ∧
    (GLView.restore env w (s.save settings) now).aAnimSwitch = s.aAnimSwitch ∧
    (GLView.restore env w (s.save settings) now).aViewPerspective = s.aViewPerspective ∧
    (GLView.restore env w (s.save settings) now).checkedViewModes = [act] := by
  have hm := checkedViewAction_mem s act h
  have h1 : (s.save settings).valueD "GLView/Enable Animations" (.bool true)
      = .bool s.aAnimate := by
    simp [GLView.save, h, QSettings.valueD, QSettings.setValue]
  have h2 : (s.save settings).valueD "GLView/Play Animation" (.bool true)
      = .bool s.aAnimPlay := by
    simp [GLView.save, h, QSettings.valueD, QSettings.setValue]
  have h3 : (s.save settings).valueD "GLView/Loop Animation" (.bool true)
      = .bool s.aAnimLoop := by
    simp [GLView.save, h, QSettings.valueD, QSettings.setValue]
  have h4 : (s.save settings).valueD "GLView/Switch Animation" (.bool true)
      = .bool s.aAnimSwitch := by
    simp [GLView.save, h, QSettings.valueD, QSettings.setValue]
  have h5 : (s.save settings).valueD "GLView/Perspective" (.bool true)
      = .bool s.aViewPerspective := by
    simp [GLView.save, h, QSettings.valueD, QSettings.setValue]
  have h6 : (s.save settings).valueD "GLView/View Action" (.str "Front")
      = .str act.text := by
    simp [GLView.save, h, QSettings.valueD, QSettings.setValue]
  unfold GLView.restore
  simp only [h1, h2, h3, h4, h5, h6, QVariant.toBool, QVariant.toString]
  rw [restoreLoop_mode env _ act hm]
  obtain ⟨k1, k2, k3, k4, k5⟩ := viewAction_keeps_flags env
    (GLView.checkActions env
      { w with aAnimate := s.aAnimate, aAnimPlay := s.aAnimPlay, aAnimLoop := s.aAnimLoop,
               aAnimSwitch := s.aAnimSwitch, aViewPerspective := s.aViewPerspective } now)
    act hm
  refine ⟨?_, ?_, ?_, ?_, ?_, viewAction_mode env _ act hm⟩
  · rw [k1]; simp only [GLView.checkActions]; split_ifs <;> rfl
  · rw [k2]; simp only [GLView.checkActions]; split_ifs <;> rfl
  · rw [k3]; simp only [GLView.checkActions]; split_ifs <;> rfl
  · rw [k4]; simp only [GLView.checkActions]; split_ifs <;> rfl
  · rw [k5]; simp only [GLView.checkActions]; split_ifs <;> rfl

/-- C8 on the sample widget: saved in Side view with Loop off and restored on
a fresh widget, Side is the one checked mode and Loop is off. -/
theorem save_restore_witness :
    (GLView.restore sampleEnv sampleView
      (GLView.save { GLView.trigger sampleEnv sampleView .aViewSide with aAnimLoop := false }
        (fun _ => none)) 2000).checkedViewModes = [.aViewSide] ∧
    (GLView.restore sampleEnv sampleView
      (GLView.save { GLView.trigger sampleEnv sampleView .aViewSide with aAnimLoop := false }
        (fun _ => none)) 2000).aAnimLoop = false :=
  ⟨(save_restore sampleEnv
      { GLView.trigger sampleEnv sampleView .aViewSide with aAnimLoop := false } sampleView
      (fun _ => none) 2000 .aViewSide (by decide)).2.2.2.2.2,
    (save_restore sampleEnv
      { GLView.trigger sampleEnv sampleView .aViewSide with aAnimLoop := false } sampleView
      (fun _ => none) 2000 .aViewSide (by decide)).2.2.1⟩

/-! ## Axis size -/

/-- C11: when `paintGL` compiles the scene of a widget that has a model, the
compile block runs to its end and `axis` becomes 1 for a negative bounds
radius, 1 when `radius * 1.4` is 0, and `radius * 1.4` otherwise; so `axis` is
strictly positive after a compile, whatever the radius. -/
theorem paintGL_compile_axis {α : Type} [LinearOrderedField α] (env : Env α) (s : GLView α)
    (model : NifModel) (h : s.doCompile = true) (hm : s.model = some model) :
    ∃ after : GLView α, GLView.paintGL_compile env s = some after ∧
      ((env.make s.scene s.model).bounds.radius < 0 → after.axis = 1) ∧
      (¬ (env.make s.scene s.model).bounds.radius < 0 →
        (env.make s.scene s.model).bounds.radius * (14 / 10) = 0 → after.axis = 1) ∧
      (¬ (env.make s.scene s.model).bounds.radius < 0 →
        (env.make s.scene s.model).bounds.radius * (14 / 10) ≠ 0 →
        after.axis = (env.make s.scene s.model).bounds.radius * (14 / 10)) ∧
      0 < after.axis ∧
      after.scene = env.make s.scene s.model ∧
      after.doCompile = false := by
  have hrun : ∃ after : GLView α, GLView.paintGL_compile env s = some after ∧
      after.axis
        = (if (if (env.make s.scene s.model).bounds.radius < 0 then (1 : α)
              else (env.make s.scene s.model).bounds.radius * (14 / 10)) = 0 then 1
          else (if (env.make s.scene s.model).bounds.radius < 0 then (1 : α)
              else (env.make s.scene s.model).bounds.radius * (14 / 10))) ∧
      after.scene = env.make s.scene s.model ∧ after.doCompile = false := by
    unfold GLView.paintGL_compile
    rw [if_pos h]
    split
    · next hn => rw [hm] at hn; exact absurd hn (by simp)
    · refine ⟨_, rfl, ?_, ?_, ?_⟩
      · dsimp only; split_ifs <;> rfl
      · dsimp only; split_ifs <;> rfl
      · rfl
  obtain ⟨after, hrun, hax, hsc, hdc⟩ := hrun
  refine ⟨after, hrun, ?_, ?_, ?_, ?_, hsc, hdc⟩
  · intro hneg
    rw [hax]; simp [hneg]
  · intro hnn hz
    rw [hax]; simp [hnn, hz]
  · intro hnn hz
    rw [hax]; simp [hnn, hz]
  · rw [hax]
    by_cases hneg : (env.make s.scene s.model).bounds.radius < 0
    · simp [hneg]
    · rw [if_neg hneg]
      by_cases hz : (env.make s.scene s.model).bounds.radius * (14 / 10) = 0
      · simp [hz]
      · rw [if_neg hz]
        have h0 : 0 ≤ (env.make s.scene s.model).bounds.radius := not_lt.mp hneg
        have h1 : 0 ≤ (env.make s.scene s.model).bounds.radius * (14 / 10) :=
          mul_nonneg h0 (by norm_num)
        exact lt_of_le_of_ne h1 (Ne.symm hz)

/-- C11 on the sample widget with `sampleModel` set: compiling the sample
scene (radius 5) ends with `axis = 7`, which is positive; compiling a scene of
radius `-1` or `0` ends with `axis = 1`. -/
theorem paintGL_compile_axis_witness :
    (∃ after : GLView ℚ,
      GLView.paintGL_compile sampleEnv
        { sampleView with doCompile := true, model := some sampleModel } = some after ∧
      after.axis = 7 ∧ 0 < after.axis) ∧
    (∃ after : GLView ℚ,
      GLView.paintGL_compile sampleEnv
        { sampleView with doCompile := true, model := some sampleModel,
                          scene := { sampleScene with bounds := ⟨⟨0, 0, 0⟩, -1⟩ } }
        = some after ∧ after.axis = 1) ∧
    (∃ after : GLView ℚ,
      GLView.paintGL_compile sampleEnv
        { sampleView with doCompile := true, model := some sampleModel,
                          scene := { sampleScene with bounds := ⟨⟨0, 0, 0⟩, 0⟩ } }
        = some after ∧ after.axis = 1) := by
  refine ⟨?_, ?_, ?_⟩
  · obtain ⟨after, h, _, _, h3, h4, _, _⟩ := paintGL_compile_axis sampleEnv
      { sampleView with doCompile := true, model := some sampleModel } sampleModel rfl rfl
    refine ⟨after, h, ?_, h4⟩
    rw [h3 (by norm_num [sampleEnv, sampleView, GLView.ctor, sampleScene])
      (by norm_num [sampleEnv, sampleView, GLView.ctor, sampleScene])]
    norm_num [sampleEnv, sampleView, GLView.ctor, sampleScene]
  · obtain ⟨after, h, h1, _, _, _, _, _⟩ := paintGL_compile_axis sampleEnv
      { sampleView with doCompile := true, model := some sampleModel,
                        scene := { sampleScene with bounds := ⟨⟨0, 0, 0⟩, -1⟩ } }
      sampleModel rfl rfl
    exact ⟨after, h, h1 (by norm_num [sampleEnv, sampleView, GLView.ctor, sampleScene])⟩
  · obtain ⟨after, h, _, h2, _, _, _, _⟩ := paintGL_compile_axis sampleEnv
      { sampleView with doCompile := true, model := some sampleModel,
                        scene := { sampleScene with bounds := ⟨⟨0, 0, 0⟩, 0⟩ } }
      sampleModel rfl rfl
    exact ⟨after, h, h2 (by norm_num [sampleEnv, sampleView, GLView.ctor, sampleScene])
      (by norm_num [sampleEnv, sampleView, GLView.ctor, sampleScene])⟩

/-! ## Loop and sequence switch -/

end Theorems

end NifSkope
